import Mathlib

/-!
Shallow embedding of `custom_components/bj_led/bjled.py` (BJLEDInstance and
its module-level constants), together with theorems settling the claims
about it.  Python `bytearray`s are modelled as `List Nat` (each byte in
[0,255] by construction), Python `None` as `Option.none`, and Python
exceptions as explicit error values.  Python `int(x / y)` on the
nonnegative quantities appearing here (products of values ≤ 25500 divided
by 255 or 100) truncates the float quotient toward zero; for these ranges
the IEEE-754 quotient is never rounded across an integer boundary (the
true rational values have denominator 51 or dividing 100, so they are
either exactly representable integers or at distance ≥ 1/100 from any
integer, far above the relative rounding error), hence `int(a * b / c)`
coincides with natural-number floor division `a * b / c`, which is how it
is embedded below.
-/

namespace BJLed

/-- `EFFECT_MAP` from bjled.py: the fixed effect-name → one-byte-code
capability table, in source order.  Code 0x0b is absent in the source. -/
def EFFECT_MAP : List (String × Nat) :=
  [ ("colorloop",     0x00)
  , ("red_fade",      0x01)
  , ("green_fade",    0x02)
  , ("blue_fade",     0x03)
  , ("yellow_fade",   0x04)
  , ("cyan_fade",     0x05)
  , ("purple_fade",   0x06)
  , ("white_fade",    0x07)
  , ("rg_cross_fade", 0x08)
  , ("rb_cross_fade", 0x09)
  , ("gb_cross_fade", 0x0a)
  , ("colorstrobe",   0x0c)
  , ("red_strobe",    0x0d)
  , ("green_strobe",  0x0e)
  , ("blue_strobe",   0x0f)
  , ("yellow_strobe", 0x10)
  , ("cyan_strobe",   0x11)
  , ("purple_strobe", 0x12)
  , ("white_strobe",  0x13)
  , ("colorjump",     0x14) ]

/-- `EFFECT_LIST = sorted(EFFECT_MAP)`: the keys of `EFFECT_MAP` in
ascending lexicographic order (what Python `sorted` over the dict
yields), written out explicitly.  `EFFECT_LIST_is_sorted_keys` below
proves it is a sorted permutation of the keys; only membership in this
list is ever used by the code. -/
def EFFECT_LIST : List String :=
  [ "blue_fade", "blue_strobe", "colorjump", "colorloop", "colorstrobe"
  , "cyan_fade", "cyan_strobe", "gb_cross_fade", "green_fade", "green_strobe"
  , "purple_fade", "purple_strobe", "rb_cross_fade", "red_fade", "red_strobe"
  , "rg_cross_fade", "white_fade", "white_strobe", "yellow_fade", "yellow_strobe" ]

/-- `TURN_ON_CMD[0]` = bytearray.fromhex("69 96 02 01 01"). -/
def TURN_ON_CMD0 : List Nat := [0x69, 0x96, 0x02, 0x01, 0x01]

/-- `TURN_OFF_CMD[0]` = bytearray.fromhex("69 96 02 01 00"). -/
def TURN_OFF_CMD0 : List Nat := [0x69, 0x96, 0x02, 0x01, 0x00]

/-- `DEFAULT_ATTEMPTS = 3`. -/
def DEFAULT_ATTEMPTS : Nat := 3

/-- `BLEAK_BACKOFF_TIME = 0.25` seconds, modelled in milliseconds. -/
def BLEAK_BACKOFF_TIME_MS : Nat := 250

/-- The cached lighting state of a `BJLEDInstance` (the fields touched by
the command paths).  `_turn_on_cmd` / `_turn_off_cmd` are set by
`_detect_model` in `__init__` (to `TURN_ON_CMD0` / `TURN_OFF_CMD0` for a
recognised device name). -/
structure LightState where
  _is_on : Option Bool
  _rgb_color : Option (Nat × Nat × Nat)
  _brightness : Option Nat
  _effect : Option String
  _turn_on_cmd : List Nat
  _turn_off_cmd : List Nat
deriving DecidableEq, Repr

/-- Outcome of the characteristic write performed by `self._write`:
either it returns, or it raises (after the retry wrapper is exhausted,
the final error propagates to the command's caller). -/
inductive WriteOutcome where
  | ok
  | failed
deriving DecidableEq, Repr

/-- Exceptions a command body can propagate. -/
inductive PyErr where
  | typeError
  | writeError
deriving DecidableEq, Repr

/-- Result of running one command body: the instance state afterwards,
the packets passed to the characteristic write (in order), and the
exception propagated, if any. -/
structure CmdOutcome where
  state : LightState
  writes : List (List Nat)
  exn : Option PyErr
deriving DecidableEq, Repr

/-- Shared tail of every command: attempt to write `packet`; on failure
the exception propagates with the state as already mutated. -/
def writeStep (st : LightState) (packet : List Nat) (w : WriteOutcome) : CmdOutcome :=
  match w with
  | .ok => { state := st, writes := [packet], exn := none }
  | .failed => { state := st, writes := [packet], exn := some .writeError }

/-- `BJLEDInstance.set_rgb_color(rgb, brightness)` (bjled.py lines
282-299).  `self._rgb_color = rgb` happens first.  When `brightness` is
`None` and `self._brightness` is `None`, the source sets
`self._brightness = 255` but leaves the local `brightness` equal to
`None`, so `int(brightness * 100 / 255)` raises a `TypeError` before any
packet is built. -/
def set_rgb_color (st : LightState) (rgb : Nat × Nat × Nat) (brightness : Option Nat)
    (w : WriteOutcome) : CmdOutcome :=
  let st1 := { st with _rgb_color := some rgb }
  match brightness, st1._brightness with
  | none, none =>
      { state := { st1 with _brightness := some 255 }, writes := [], exn := some .typeError }
  | none, some sb =>
      let brightness_percent := sb * 100 / 255
      let red := rgb.1 * brightness_percent / 100
      let green := rgb.2.1 * brightness_percent / 100
      let blue := rgb.2.2 * brightness_percent / 100
      writeStep st1 ([0x69, 0x96, 0x05, 0x02] ++ [red, green, blue]) w
  | some b, _ =>
      let brightness_percent := b * 100 / 255
      let red := rgb.1 * brightness_percent / 100
      let green := rgb.2.1 * brightness_percent / 100
      let blue := rgb.2.2 * brightness_percent / 100
      writeStep st1 ([0x69, 0x96, 0x05, 0x02] ++ [red, green, blue]) w

/-- `BJLEDInstance.turn_on` (bjled.py lines 331-334; the class defines it
twice with identical bodies, the later definition wins): it awaits
`self._write(self._turn_on_cmd)` FIRST and only then sets
`self._is_on = True`, so a failed write leaves `_is_on` unchanged. -/
def turn_on (st : LightState) (w : WriteOutcome) : CmdOutcome :=
  match w with
  | .ok => { state := { st with _is_on := some true }, writes := [st._turn_on_cmd], exn := none }
  | .failed => { state := st, writes := [st._turn_on_cmd], exn := some .writeError }

/-- `BJLEDInstance.turn_off` (bjled.py lines 336-339): write first, then
`self._is_on = False`. -/
def turn_off (st : LightState) (w : WriteOutcome) : CmdOutcome :=
  match w with
  | .ok => { state := { st with _is_on := some false }, writes := [st._turn_off_cmd], exn := none }
  | .failed => { state := st, writes := [st._turn_off_cmd], exn := some .writeError }

/-- `BJLEDInstance.set_effect(effect)` (bjled.py lines 317-329): unknown
names are logged and dropped (no write, no state change); known names set
`self._effect` first, then build `69 96 03 03 <code> 01` and write it. -/
def set_effect (st : LightState) (effect : String) (w : WriteOutcome) : CmdOutcome :=
  if EFFECT_LIST.contains effect = false then
    { state := st, writes := [], exn := none }
  else
    let st1 := { st with _effect := some effect }
    match (EFFECT_MAP.find? (fun p => p.1 == effect)).map Prod.snd with
    | some effect_id =>
        writeStep st1 ([0x69, 0x96, 0x03, 0x03] ++ [effect_id, 0x01]) w
    | none =>
        { state := st1, writes := [], exn := some .typeError }

/-- `BJLEDInstance.normalize_brightness(new_brightness)` (bjled.py lines
467-483).  Takes the stored `self._brightness` and the argument; returns
the pair (new stored `self._brightness`, returned percentage).  When the
argument is `None` and the stored brightness is ≤ 1 (not `None`), the
local variable stays `None` and `new_brightness < 2` raises a
`TypeError`, modelled as `Except.error`. -/
def normalize_brightness (self_brightness : Option Int) (new_brightness : Option Int) :
    Except Unit (Int × Nat) :=
  let nb : Option Int :=
    match new_brightness, self_brightness with
    | none, none => some 255
    | none, some sb => if sb > 1 then some sb else none
    | some n, _ => some n
  match nb with
  | none => .error ()
  | some n0 =>
    let n1 := if n0 < 2 then 2 else n0
    let n2 := if n1 > 255 then 255 else n1
    .ok (n2, n2.toNat * 100 / 255)

/-- The GATT service collection of a connection, abstracted to the one
lookup the code performs: `services.get_characteristic(uuid)` for the
single entry of `WRITE_CHARACTERISTIC_UUIDS`.  `write_char` is the handle
returned (`none` when the characteristic is absent). -/
structure Services where
  write_char : Option Nat
deriving DecidableEq, Repr

/-- A `BleakClientWithServiceCache` connection handle. -/
structure Client where
  services : Services
  is_connected : Bool
deriving DecidableEq, Repr

/-- The connection-related fields of a `BJLEDInstance`. -/
structure ConnState where
  _client : Option Client
  _write_uuid : Option Nat
  _read_uuid : Option Nat
  _cached_services : Option Services
  _expected_disconnect : Bool
deriving DecidableEq, Repr

/-- `BJLEDInstance._resolve_characteristics(services)` (bjled.py lines
401-412).  The loop over `NOTIFY_CHARACTERISTIC_UUIDS` that would set
`self._read_uuid` is commented out in the source; only the write loop
runs, and when the characteristic is absent `self._write_uuid` keeps its
previous value.  The return value is `bool(self._read_uuid and
self._write_uuid)`. -/
def _resolve_characteristics (st : ConnState) (services : Services) : ConnState × Bool :=
  let st1 :=
    match services.write_char with
    | some char => { st with _write_uuid := some char }
    | none => st
  (st1, st1._read_uuid.isSome && st1._write_uuid.isSome)

/-- Outcome of `establish_connection` in `_ensure_connected`:
a connected client, or one of the propagated errors
(`BleakNotFoundError`, or a retry-exhausted transport error). -/
inductive ConnectResult where
  | ok (client : Client)
  | notFound
  | transportError
deriving DecidableEq, Repr

/-- Whether `st._client` holds a client that reports itself connected
(Python `self._client and self._client.is_connected`). -/
def clientLive (st : ConnState) : Bool :=
  match st._client with
  | some c => c.is_connected
  | none => false

/-- `BJLEDInstance._ensure_connected` (bjled.py lines 357-400), as a
state transformer parameterised by the outcome of
`establish_connection`.  The fast path (client live) returns after
`_reset_disconnect_timer` (which clears `_expected_disconnect`; the timer
handle itself is modelled separately by `TimerModel`).  Under the
sequential model the re-check under the lock coincides with the fast
path.  On the connect path, characteristic resolution is attempted and,
if it reports failure, retried once on the same service collection; the
services are cached only if `resolved` is true; the client is stored and
the idle timer reset.  A `ConnectResult` error propagates with the state
unchanged. -/
def _ensure_connected (st : ConnState) (conn : ConnectResult) : Except Unit ConnState :=
  if clientLive st then
    .ok { st with _expected_disconnect := false }
  else
    match conn with
    | .notFound => .error ()
    | .transportError => .error ()
    | .ok client =>
        let r1 := _resolve_characteristics st client.services
        let r2 := if r1.2 then r1 else _resolve_characteristics r1.1 client.services
        let st3 := { r2.1 with _cached_services := if r2.2 then some client.services else none }
        let st4 := { st3 with _client := some client }
        .ok { st4 with _expected_disconnect := false }

/-- Behaviour of the underlying `await client.disconnect()` call. -/
inductive DisconnectBehavior where
  | succeeds
  | raises
deriving DecidableEq, Repr

/-- Result of running `_execute_disconnect`: the state afterwards,
whether the transport-level disconnect was invoked, and the exception
propagated past the method, if any. -/
structure DisconnectOutcome where
  state : ConnState
  transportCalled : Bool
  exn : Option Unit
deriving DecidableEq, Repr

/-- `BJLEDInstance._execute_disconnect` (bjled.py lines 453-465): under
the lock, mark the disconnect expected and clear `_client` and
`_write_uuid`; then, if a live client was held, await
`client.disconnect()`.  That await is NOT wrapped in any try/except, so a
raising disconnect propagates out of the method (with the state already
cleared). -/
def _execute_disconnect (st : ConnState) (d : DisconnectBehavior) : DisconnectOutcome :=
  let client := st._client
  let st1 := { st with _expected_disconnect := true, _client := none, _write_uuid := none }
  match client with
  | some c =>
      if c.is_connected then
        match d with
        | .succeeds => { state := st1, transportCalled := true, exn := none }
        | .raises => { state := st1, transportCalled := true, exn := some () }
      else { state := st1, transportCalled := false, exn := none }
  | none => { state := st1, transportCalled := false, exn := none }

/-- `BJLEDInstance.stop` (bjled.py lines 439-442): logs and awaits
`_execute_disconnect`; any exception from it propagates. -/
def stop (st : ConnState) (d : DisconnectBehavior) : DisconnectOutcome :=
  _execute_disconnect st d

/-- `BJLEDInstance._execute_timed_disconnect` (bjled.py lines 444-451),
the body of the task created by the idle-timer callback: logs and awaits
`_execute_disconnect`; any exception from it propagates out of the
method (into the spawned task). -/
def _execute_timed_disconnect (st : ConnState) (d : DisconnectBehavior) : DisconnectOutcome :=
  _execute_disconnect st d

/-- A `loop.call_later` timer handle: its id distinguishes handles, and
`delay` records the requested delay (Python passes `self._delay`). -/
structure TimerHandle where
  id : Nat
  delay : Int
deriving DecidableEq, Repr

/-- The event-loop view of the session's idle timer: `pending` is the
list of scheduled, not-yet-cancelled timers owned by the session,
`handle` is `self._disconnect_timer` (which keeps pointing at a
cancelled handle: the source never sets it back to `None` here), and
`nextId` supplies fresh handle ids. -/
structure TimerModel where
  pending : List TimerHandle
  handle : Option TimerHandle
  nextId : Nat
  _expected_disconnect : Bool
deriving DecidableEq, Repr

/-- `BJLEDInstance._reset_disconnect_timer` (bjled.py lines 414-425):
cancel the current timer if one is held, clear `_expected_disconnect`,
then schedule a new timer iff `self._delay is not None and self._delay
!= 0` (note: any nonzero delay, sign unchecked). -/
def _reset_disconnect_timer (delay : Option Int) (tm : TimerModel) : TimerModel :=
  let tm1 :=
    match tm.handle with
    | some t => { tm with pending := tm.pending.filter (fun u => u ≠ t) }
    | none => tm
  let tm2 := { tm1 with _expected_disconnect := false }
  match delay with
  | none => tm2
  | some d =>
      if d = 0 then tm2
      else
        let newTimer : TimerHandle := { id := tm2.nextId, delay := d }
        { tm2 with
            pending := tm2.pending ++ [newTimer]
            handle := some newTimer
            nextId := tm2.nextId + 1 }

/-- The per-attempt behaviour of the coroutine wrapped by
`retry_bluetooth_connection_error`: it returns a value or raises one of
the three handled exception classes (`BleakNotFoundError`,
`BleakDBusError` = `RETRY_BACKOFF_EXCEPTIONS`, or another member of
`BLEAK_EXCEPTIONS`). -/
inductive BleakErr where
  | notFound
  | dbus
  | bleak
deriving DecidableEq, Repr

/-- What attempt number `i` (0-based) of the wrapped coroutine does. -/
inductive AttemptResult (α : Type) where
  | ok (a : α)
  | err (e : BleakErr)
deriving DecidableEq, Repr

/-- Observable events of a run of the retry wrapper: invocations of the
wrapped coroutine (with the 0-based attempt index) and `asyncio.sleep`
calls (duration in milliseconds). -/
inductive RetryEvent where
  | call (attempt : Nat)
  | sleep (ms : Nat)
deriving DecidableEq, Repr

/-- A run of the retry wrapper: its event log and its final result
(`Except` error = the exception re-raised to the caller). -/
structure RetryTrace (α : Type) where
  events : List RetryEvent
  result : Except BleakErr α
deriving Repr

/-- The `for attempt in range(attempts)` loop of
`retry_bluetooth_connection_error` (bjled.py lines 93-154), from
`attempt` with `fuel` iterations left.  `maxAttempts = attempts - 1`;
`attempt >= max_attempts` means the error is re-raised; a
`BleakDBusError` before that sleeps `BLEAK_BACKOFF_TIME` (250 ms) before
the next attempt, while other `BLEAK_EXCEPTIONS` retry immediately.
`BleakNotFoundError` is always re-raised at once.  The fuel is
`DEFAULT_ATTEMPTS` at the top call so the base case is never reached. -/
def retryGo {α : Type} (outcomes : Nat → AttemptResult α) (maxAttempts : Nat) :
    Nat → Nat → RetryTrace α
  | _, 0 => { events := [], result := .error .bleak }
  | attempt, fuel + 1 =>
      match outcomes attempt with
      | .ok a => { events := [.call attempt], result := .ok a }
      | .err .notFound => { events := [.call attempt], result := .error .notFound }
      | .err .dbus =>
          if maxAttempts ≤ attempt then
            { events := [.call attempt], result := .error .dbus }
          else
            let t := retryGo outcomes maxAttempts (attempt + 1) fuel
            { events := .call attempt :: .sleep BLEAK_BACKOFF_TIME_MS :: t.events
              result := t.result }
      | .err .bleak =>
          if maxAttempts ≤ attempt then
            { events := [.call attempt], result := .error .bleak }
          else
            let t := retryGo outcomes maxAttempts (attempt + 1) fuel
            { events := .call attempt :: t.events, result := t.result }

/-- `retry_bluetooth_connection_error` (bjled.py lines 93-154) applied
to a coroutine whose successive attempts behave as `outcomes`:
`attempts = DEFAULT_ATTEMPTS = 3`, `max_attempts = attempts - 1 = 2`. -/
def retry_bluetooth_connection_error {α : Type} (outcomes : Nat → AttemptResult α) :
    RetryTrace α :=
  retryGo outcomes (DEFAULT_ATTEMPTS - 1) 0 DEFAULT_ATTEMPTS

/-- Number of invocations of the wrapped coroutine in a trace. -/
def RetryTrace.calls {α : Type} (t : RetryTrace α) : Nat :=
  t.events.countP (fun e => match e with | .call _ => true | _ => false)

/-- Whether an attempt raised one of the two retryable classes. -/
def retryable {α : Type} (o : AttemptResult α) : Prop :=
  o = .err .dbus ∨ o = .err .bleak

/-- The session's timer invariant: every pending timer is the one
currently held in `_disconnect_timer`, and any held handle has an id
below the fresh-id counter.  It holds of the initial state (no pending
timers, no handle) and, per `reset_disconnect_timer_amended`, is
preserved by `_reset_disconnect_timer`. -/
@[reducible] def TimerInv (tm : TimerModel) : Prop :=
  (∀ t ∈ tm.pending, tm.handle = some t)
  ∧ (∀ t, tm.handle = some t → t.id < tm.nextId)

/-- Faithfulness of the explicit `EFFECT_LIST` literal: it is a
permutation of the keys of `EFFECT_MAP`, sorted strictly ascending
(character-list order), i.e. exactly `sorted(EFFECT_MAP)`. -/
theorem EFFECT_LIST_is_sorted_keys :
    EFFECT_LIST.Perm (EFFECT_MAP.map Prod.fst)
    ∧ EFFECT_LIST.Pairwise (fun a b => a.data < b.data) := by
  constructor
  · decide
  · decide

/-- Claim C5: for every effect name in the capability table, `set_effect`
writes exactly the 6-byte packet `69 96 03 03 <code> 01` (5th byte the
table's code, fixed trailing byte 0x01), and the name-to-code table is a
bijection whose codes are 0x00-0x0a and 0x0c-0x14 (0x0b absent). -/
theorem set_effect_packet_table (name : String) (code : Nat)
    (hmem : (name, code) ∈ EFFECT_MAP) (st : LightState) (w : WriteOutcome) :
    ((set_effect st name w).writes = [[0x69, 0x96, 0x03, 0x03, code, 0x01]]
      ∧ (set_effect st name w).state._effect = some name)
    ∧ (EFFECT_MAP.map Prod.fst).Nodup
    ∧ (EFFECT_MAP.map Prod.snd).Nodup
    ∧ EFFECT_MAP.map Prod.snd
        = [0x00, 0x01, 0x02, 0x03, 0x04, 0x05, 0x06, 0x07, 0x08, 0x09, 0x0a,
           0x0c, 0x0d, 0x0e, 0x0f, 0x10, 0x11, 0x12, 0x13, 0x14] := by
  refine ⟨?_, by decide, by decide, rfl⟩
  fin_cases hmem <;> cases w <;> exact ⟨rfl, rfl⟩

/-- Witness for C5: the theorem applied to the first table entry. -/
theorem set_effect_packet_table_witness :
    ((set_effect ⟨none, none, some 255, none, TURN_ON_CMD0, TURN_OFF_CMD0⟩ "colorloop" .ok).writes
        = [[0x69, 0x96, 0x03, 0x03, 0x00, 0x01]]
      ∧ (set_effect ⟨none, none, some 255, none, TURN_ON_CMD0, TURN_OFF_CMD0⟩ "colorloop" .ok).state._effect
        = some "colorloop")
    ∧ (EFFECT_MAP.map Prod.fst).Nodup
    ∧ (EFFECT_MAP.map Prod.snd).Nodup
    ∧ EFFECT_MAP.map Prod.snd
        = [0x00, 0x01, 0x02, 0x03, 0x04, 0x05, 0x06, 0x07, 0x08, 0x09, 0x0a,
           0x0c, 0x0d, 0x0e, 0x0f, 0x10, 0x11, 0x12, 0x13, 0x14] :=
  set_effect_packet_table "colorloop" 0x00 (by decide)
    ⟨none, none, some 255, none, TURN_ON_CMD0, TURN_OFF_CMD0⟩ .ok

/-- Claim C6: for every brightness b ≤ 255 and RGB triple, the packet
built by `set_rgb_color` carries each channel scaled to
`channel * (b * 100 / 255) / 100` (floor divisions); b = 0 zeroes every
channel and b = 255 leaves every channel unchanged (the percentage is
exactly 100). -/
theorem set_rgb_color_scaling (st : LightState) (r g b3 b : Nat) (hb : b ≤ 255)
    (w : WriteOutcome) :
    (set_rgb_color st (r, g, b3) (some b) w).writes
      = [[0x69, 0x96, 0x05, 0x02, r * (b * 100 / 255) / 100, g * (b * 100 / 255) / 100,
          b3 * (b * 100 / 255) / 100]]
    ∧ (b = 0 →
        (set_rgb_color st (r, g, b3) (some b) w).writes = [[0x69, 0x96, 0x05, 0x02, 0, 0, 0]])
    ∧ (b = 255 → b * 100 / 255 = 100
        ∧ (set_rgb_color st (r, g, b3) (some b) w).writes
            = [[0x69, 0x96, 0x05, 0x02, r, g, b3]]) := by
  have hw : ∀ w0 : WriteOutcome, (set_rgb_color st (r, g, b3) (some b) w0).writes
      = [[0x69, 0x96, 0x05, 0x02, r * (b * 100 / 255) / 100, g * (b * 100 / 255) / 100,
          b3 * (b * 100 / 255) / 100]] := by
    intro w0
    cases w0 <;> rfl
  refine ⟨hw w, ?_, ?_⟩
  · rintro rfl
    rw [hw w]
    simp
  · rintro rfl
    have hc : ∀ x : Nat, x * (255 * 100 / 255) / 100 = x := fun x => by omega
    refine ⟨rfl, ?_⟩
    rw [hw w, hc, hc, hc]

/-- Witness for C6: the theorem applied at brightness 128 and the triple
(255, 128, 7); the computed percentage is 50. -/
theorem set_rgb_color_scaling_witness :
    (set_rgb_color ⟨none, none, some 255, none, TURN_ON_CMD0, TURN_OFF_CMD0⟩ (255, 128, 7)
        (some 128) .ok).writes
      = [[0x69, 0x96, 0x05, 0x02, 255 * (128 * 100 / 255) / 100, 128 * (128 * 100 / 255) / 100,
          7 * (128 * 100 / 255) / 100]]
    ∧ ((128 : Nat) = 0 →
        (set_rgb_color ⟨none, none, some 255, none, TURN_ON_CMD0, TURN_OFF_CMD0⟩ (255, 128, 7)
            (some 128) .ok).writes = [[0x69, 0x96, 0x05, 0x02, 0, 0, 0]])
    ∧ ((128 : Nat) = 255 → 128 * 100 / 255 = 100
        ∧ (set_rgb_color ⟨none, none, some 255, none, TURN_ON_CMD0, TURN_OFF_CMD0⟩ (255, 128, 7)
            (some 128) .ok).writes = [[0x69, 0x96, 0x05, 0x02, 255, 128, 7]]) :=
  set_rgb_color_scaling ⟨none, none, some 255, none, TURN_ON_CMD0, TURN_OFF_CMD0⟩
    255 128 7 128 (by decide) .ok

/-- Claim C10: calling `set_rgb_color` with brightness `None` while the
stored brightness is also `None` sets the stored brightness to 255 but
leaves the local variable `None`, so `int(brightness * 100 / 255)`
raises a `TypeError` before any packet is constructed or written; the
already-performed `self._rgb_color = rgb` mutation remains. -/
theorem set_rgb_color_none_none_fails (st : LightState) (rgb : Nat × Nat × Nat)
    (w : WriteOutcome) (h : st._brightness = none) :
    set_rgb_color st rgb none w
      = { state := { st with _rgb_color := some rgb, _brightness := some 255 },
          writes := [], exn := some .typeError } := by
  obtain ⟨o, c, br, ef, t1, t2⟩ := st
  replace h : br = none := h
  subst h
  rfl

/-- Witness for C10: the theorem applied to a fresh state whose stored
brightness is `None`. -/
theorem set_rgb_color_none_none_fails_witness :
    set_rgb_color ⟨none, none, none, none, TURN_ON_CMD0, TURN_OFF_CMD0⟩ (255, 0, 0) none .ok
      = { state := ⟨none, some (255, 0, 0), some 255, none, TURN_ON_CMD0, TURN_OFF_CMD0⟩,
          writes := [], exn := some .typeError } :=
  set_rgb_color_none_none_fails ⟨none, none, none, none, TURN_ON_CMD0, TURN_OFF_CMD0⟩
    (255, 0, 0) .ok rfl

/-- Counterexample for C4: as stated, the claim is false — called with
`None` while no prior brightness is stored, `normalize_brightness`
yields (returns) the percentage 100, not 255 (255 is only what it stores
into `self._brightness`). -/
theorem normalize_brightness_counterexample :
    normalize_brightness none none = .ok (255, 100) ∧ (100 : Nat) ≠ 255 :=
  ⟨rfl, by decide⟩

/-- C4 as amended: the normalized brightness that the function stores in
`self._brightness` is 255 for input `None` with no prior brightness,
2 for any input below 2, 255 for any input above 255, and the input
itself otherwise; the function's return value is that normalized value
converted to a percentage, `floor(nb * 100 / 255)`. -/
theorem normalize_brightness_amended (sb : Option Int) (n : Int) :
    normalize_brightness none none = .ok (255, 100)
    ∧ (n < 2 → normalize_brightness sb (some n) = .ok (2, 0))
    ∧ (255 < n → normalize_brightness sb (some n) = .ok (255, 100))
    ∧ (2 ≤ n → n ≤ 255 → normalize_brightness sb (some n) = .ok (n, n.toNat * 100 / 255)) := by
  refine ⟨rfl, ?_, ?_, ?_⟩
  · intro h
    simp only [normalize_brightness, if_pos h]
    rfl
  · intro h
    have h1 : ¬ n < 2 := by omega
    simp only [normalize_brightness, if_neg h1, if_pos (show n > 255 by omega)]
    rfl
  · intro h1 h2
    have h3 : ¬ n < 2 := by omega
    have h4 : ¬ n > 255 := by omega
    simp only [normalize_brightness, if_neg h3, if_neg h4]

/-- Witness for C4's amended theorem: instantiated at a prior brightness
of 7 and the in-range input 128 (stored unchanged, percentage 50). -/
theorem normalize_brightness_amended_witness :
    normalize_brightness none none = .ok (255, 100)
    ∧ ((128 : Int) < 2 → normalize_brightness (some 7) (some 128) = .ok (2, 0))
    ∧ ((255 : Int) < 128 → normalize_brightness (some 7) (some 128) = .ok (255, 100))
    ∧ ((2 : Int) ≤ 128 → (128 : Int) ≤ 255 →
        normalize_brightness (some 7) (some 128) = .ok (128, (128 : Int).toNat * 100 / 255)) :=
  normalize_brightness_amended (some 7) 128

/-- Counterexample for C1: as stated, the claim is false for the power
path — `turn_on` performs the write first and assigns `_is_on` only
afterwards, so a write that fails leaves the OLD value cached (here
`some false`), not the new value `some true`. -/
theorem turn_on_failed_write_counterexample :
    (turn_on ⟨some false, none, some 255, none, TURN_ON_CMD0, TURN_OFF_CMD0⟩ .failed).state._is_on
      = some false
    ∧ (some false : Option Bool) ≠ some true :=
  ⟨rfl, by decide⟩

/-- C1 as amended: `set_rgb_color` and `set_effect` assign their cached
field (`_rgb_color`, `_effect`) before the write is attempted, so after
a failed write the new value is still cached; but `turn_on` and
`turn_off` write first and assign `_is_on` only on success, so a failed
write leaves `_is_on` (and the whole state) unchanged. -/
theorem optimistic_mutation_by_path (st : LightState) (rgb : Nat × Nat × Nat)
    (brightness : Option Nat) (e : String) (w : WriteOutcome) (he : e ∈ EFFECT_LIST) :
    (set_rgb_color st rgb brightness w).state._rgb_color = some rgb
    ∧ (set_effect st e w).state._effect = some e
    ∧ (turn_on st .failed).state = st
    ∧ (turn_on st .ok).state._is_on = some true
    ∧ (turn_off st .failed).state = st
    ∧ (turn_off st .ok).state._is_on = some false := by
  refine ⟨?_, ?_, rfl, rfl, rfl, rfl⟩
  · obtain ⟨o, c, br, ef, t1, t2⟩ := st
    rcases brightness with _ | b <;> rcases br with _ | sb <;> cases w <;> rfl
  · fin_cases he <;> cases w <;> rfl

/-- Witness for C1's amended theorem, at a state with `_is_on = some
false`, the triple (1, 2, 3), brightness 10, and effect "colorloop",
with a failing write. -/
theorem optimistic_mutation_by_path_witness :
    (set_rgb_color ⟨some false, none, some 255, none, TURN_ON_CMD0, TURN_OFF_CMD0⟩ (1, 2, 3)
        (some 10) .failed).state._rgb_color = some (1, 2, 3)
    ∧ (set_effect ⟨some false, none, some 255, none, TURN_ON_CMD0, TURN_OFF_CMD0⟩ "colorloop"
        .failed).state._effect = some "colorloop"
    ∧ (turn_on ⟨some false, none, some 255, none, TURN_ON_CMD0, TURN_OFF_CMD0⟩ .failed).state
        = ⟨some false, none, some 255, none, TURN_ON_CMD0, TURN_OFF_CMD0⟩
    ∧ (turn_on ⟨some false, none, some 255, none, TURN_ON_CMD0, TURN_OFF_CMD0⟩ .ok).state._is_on
        = some true
    ∧ (turn_off ⟨some false, none, some 255, none, TURN_ON_CMD0, TURN_OFF_CMD0⟩ .failed).state
        = ⟨some false, none, some 255, none, TURN_ON_CMD0, TURN_OFF_CMD0⟩
    ∧ (turn_off ⟨some false, none, some 255, none, TURN_ON_CMD0, TURN_OFF_CMD0⟩ .ok).state._is_on
        = some false :=
  optimistic_mutation_by_path ⟨some false, none, some 255, none, TURN_ON_CMD0, TURN_OFF_CMD0⟩
    (1, 2, 3) (some 10) "colorloop" .failed (by decide)

/-- Helper: `_ensure_connected` on the connect path, started from a
state with no client, no write handle and no read handle (the only
reachable pre-connect states: fresh construction or post-disconnect).
The client is stored, the write handle becomes whatever the service
lookup returned, the service cache is set to `none` (resolution can
never report success because `_read_uuid` is never populated), and the
expected-disconnect flag is cleared by the timer reset. -/
theorem ensure_connected_from_disconnected (st : ConnState) (client : Client)
    (h1 : st._client = none) (h2 : st._write_uuid = none) (h3 : st._read_uuid = none) :
    _ensure_connected st (.ok client)
      = .ok { st with
              _client := some client
              _write_uuid := client.services.write_char
              _cached_services := none
              _expected_disconnect := false } := by
  obtain ⟨c, wu, ru, cs, ex⟩ := st
  obtain ⟨⟨wc⟩, conn⟩ := client
  replace h1 : c = none := h1
  replace h2 : wu = none := h2
  replace h3 : ru = none := h3
  subst h1
  subst h2
  subst h3
  cases wc <;> rfl

/-- Counterexample for C2: as stated, the claim is false — when
`_ensure_connected` connects to a client whose services do NOT contain
the write characteristic, it still stores the connection handle while
`_write_uuid` stays null, so non-null `_write_uuid` is not equivalent to
a live `_client`. -/
theorem write_uuid_client_counterexample :
    _ensure_connected ⟨none, none, none, none, false⟩ (.ok ⟨⟨none⟩, true⟩)
      = .ok ⟨some ⟨⟨none⟩, true⟩, none, none, none, false⟩
    ∧ ¬(((some (⟨⟨none⟩, true⟩ : Client)).isSome = true)
          ↔ ((none : Option Nat).isSome = true)) :=
  ⟨rfl, by decide⟩

/-- C2 as amended: after `_execute_disconnect` both `_client` and
`_write_uuid` are null (the equivalence holds there); after a successful
`_ensure_connected` from a disconnected state the connection handle is
always non-null, and `_write_uuid` is non-null exactly when the
connection's services contain the write characteristic — so the claimed
equivalence holds after connecting if and only if resolution found the
characteristic. -/
theorem write_uuid_client_invariant_amended (st stc : ConnState) (client : Client)
    (d : DisconnectBehavior)
    (h1 : stc._client = none) (h2 : stc._write_uuid = none) (h3 : stc._read_uuid = none) :
    ((_execute_disconnect st d).state._client = none
      ∧ (_execute_disconnect st d).state._write_uuid = none)
    ∧ (∀ st', _ensure_connected stc (.ok client) = .ok st' →
        st'._client.isSome = true
        ∧ st'._write_uuid.isSome = client.services.write_char.isSome) := by
  constructor
  · obtain ⟨c, wu, ru, cs, ex⟩ := st
    rcases c with _ | ⟨sv, b⟩
    · exact ⟨rfl, rfl⟩
    · cases b <;> cases d <;> exact ⟨rfl, rfl⟩
  · intro st' hok
    rw [ensure_connected_from_disconnected stc client h1 h2 h3] at hok
    injection hok with hok
    subst hok
    exact ⟨rfl, rfl⟩

/-- Witness for C2's amended theorem: a fresh session connecting to a
client whose services hold the write characteristic (handle 5). -/
theorem write_uuid_client_invariant_amended_witness :
    (((_execute_disconnect ⟨some ⟨⟨some 5⟩, true⟩, some 5, none, none, false⟩
          .succeeds).state._client = none)
      ∧ (_execute_disconnect ⟨some ⟨⟨some 5⟩, true⟩, some 5, none, none, false⟩
          .succeeds).state._write_uuid = none)
    ∧ (∀ st', _ensure_connected ⟨none, none, none, none, false⟩ (.ok ⟨⟨some 5⟩, true⟩) = .ok st' →
        st'._client.isSome = true
        ∧ st'._write_uuid.isSome = (Client.mk ⟨some 5⟩ true).services.write_char.isSome) :=
  write_uuid_client_invariant_amended ⟨some ⟨⟨some 5⟩, true⟩, some 5, none, none, false⟩
    ⟨none, none, none, none, false⟩ ⟨⟨some 5⟩, true⟩ .succeeds rfl rfl rfl

/-- Claim C9 (code bug): from any reachable pre-connect state (no
client, no write handle, and — as everywhere in this program — a
never-assigned `_read_uuid`), even when the connection's services DO
contain the write characteristic, `_ensure_connected` sets
`_cached_services` to `none`: the success flag of
`_resolve_characteristics` is `bool(self._read_uuid and
self._write_uuid)` and `_read_uuid` is never populated (its resolution
loop is commented out), so the service collection is never cached. -/
theorem ensure_connected_never_caches_services (st : ConnState) (client : Client)
    (h1 : st._client = none) (h2 : st._write_uuid = none) (h3 : st._read_uuid = none)
    (_hfound : client.services.write_char.isSome = true) :
    _ensure_connected st (.ok client)
      = .ok { st with
              _client := some client
              _write_uuid := client.services.write_char
              _cached_services := none
              _expected_disconnect := false } :=
  ensure_connected_from_disconnected st client h1 h2 h3

/-- Witness for C9: a fresh session connecting to a client whose
services contain the write characteristic; the cache still ends `none`. -/
theorem ensure_connected_never_caches_services_witness :
    _ensure_connected ⟨none, none, none, none, false⟩ (.ok ⟨⟨some 5⟩, true⟩)
      = .ok ⟨some ⟨⟨some 5⟩, true⟩, some 5, none, none, false⟩ :=
  ensure_connected_never_caches_services ⟨none, none, none, none, false⟩ ⟨⟨some 5⟩, true⟩
    rfl rfl rfl rfl

/-- Counterexample for C8: as stated, the claim is false — when the
transport-level disconnect raises while a live client is held, the
exception propagates out of `stop` (there is no try/except around
`await client.disconnect()`). -/
theorem stop_propagates_disconnect_failure :
    (stop ⟨some ⟨⟨some 5⟩, true⟩, some 5, none, none, false⟩ .raises).exn = some () :=
  rfl

/-- C8 as amended: `stop` and the idle-timer path always complete the
state cleanup (client and write handle cleared, expected-disconnect flag
set) before the transport call, but a transport-disconnect failure on a
live connection propagates to the caller: the exception escapes exactly
when a live client was held and the disconnect raises. -/
theorem stop_cleanup_and_error_amended (st : ConnState) (d : DisconnectBehavior) :
    (stop st d).state._client = none
    ∧ (stop st d).state._write_uuid = none
    ∧ (stop st d).state._expected_disconnect = true
    ∧ ((stop st d).exn = some () ↔ (clientLive st = true ∧ d = .raises))
    ∧ _execute_timed_disconnect st d = stop st d := by
  obtain ⟨c, wu, ru, cs, ex⟩ := st
  rcases c with _ | ⟨sv, b⟩
  · cases d <;>
      exact ⟨rfl, rfl, rfl, ⟨(fun h => nomatch h), (fun hc => nomatch hc.1)⟩, rfl⟩
  · cases b <;> cases d
    · exact ⟨rfl, rfl, rfl, ⟨(fun h => nomatch h), (fun hc => nomatch hc.1)⟩, rfl⟩
    · exact ⟨rfl, rfl, rfl, ⟨(fun h => nomatch h), (fun hc => nomatch hc.1)⟩, rfl⟩
    · exact ⟨rfl, rfl, rfl, ⟨(fun h => nomatch h), (fun hc => nomatch hc.2)⟩, rfl⟩
    · exact ⟨rfl, rfl, rfl, ⟨(fun _ => ⟨rfl, rfl⟩), (fun _ => rfl)⟩, rfl⟩

/-- Counterexample for C7: as stated, the claim is false — with the
configured delay -1, which is not positive, `_reset_disconnect_timer`
schedules a timer anyway (the source only checks `is not None` and
`!= 0`). -/
theorem reset_timer_negative_delay_counterexample :
    (_reset_disconnect_timer (some (-1)) ⟨[], none, 0, true⟩).pending = [⟨0, -1⟩]
    ∧ ¬((-1 : Int) > 0) :=
  ⟨rfl, by decide⟩

/-- C7 as amended: every call to `_reset_disconnect_timer` first cancels
any pending timer (so, from any state satisfying the timer invariant, at
most one timer is pending afterwards and the previously held timer is no
longer pending), and then schedules a new one-shot timer for the
configured delay iff a delay is configured and nonzero (negative values
included); with a zero or unset delay no timer is scheduled and none
remains pending. -/
theorem reset_disconnect_timer_amended (delay : Option Int) (tm : TimerModel)
    (hinv : TimerInv tm) :
    TimerInv (_reset_disconnect_timer delay tm)
    ∧ (_reset_disconnect_timer delay tm).pending.length ≤ 1
    ∧ (∀ t, tm.handle = some t → t ∉ (_reset_disconnect_timer delay tm).pending)
    ∧ (∀ d, delay = some d → d ≠ 0 →
        (_reset_disconnect_timer delay tm).pending = [⟨tm.nextId, d⟩])
    ∧ ((delay = none ∨ delay = some 0) → (_reset_disconnect_timer delay tm).pending = []) := by
  obtain ⟨pend, hd, nid, ex⟩ := tm
  obtain ⟨hmem, hfresh⟩ := hinv
  dsimp only at hmem hfresh ⊢
  rcases hd with _ | t0
  · have hpend : pend = [] := by
      rcases pend with _ | ⟨a, l⟩
      · rfl
      · exact nomatch (hmem a (by simp))
    subst hpend
    rcases delay with _ | dv
    · have hres : _reset_disconnect_timer none (⟨[], none, nid, ex⟩ : TimerModel)
          = ⟨[], none, nid, false⟩ := rfl
      rw [hres]
      exact ⟨⟨by simp, (fun t h => nomatch h)⟩, by simp, (fun t h => nomatch h),
        (fun d hdeq => nomatch hdeq), (fun _ => rfl)⟩
    · by_cases hz : dv = 0
      · subst hz
        have hres : _reset_disconnect_timer (some 0) (⟨[], none, nid, ex⟩ : TimerModel)
            = ⟨[], none, nid, false⟩ := rfl
        rw [hres]
        refine ⟨⟨by simp, (fun t h => nomatch h)⟩, by simp, (fun t h => nomatch h), ?_,
          (fun _ => rfl)⟩
        intro d hdeq hdz
        injection hdeq with h
        exact absurd h.symm hdz
      · have hres : _reset_disconnect_timer (some dv) (⟨[], none, nid, ex⟩ : TimerModel)
            = ⟨[⟨nid, dv⟩], some ⟨nid, dv⟩, nid + 1, false⟩ := by
          have h0 : _reset_disconnect_timer (some dv) (⟨[], none, nid, ex⟩ : TimerModel)
              = if dv = 0 then ⟨[], none, nid, false⟩
                else ⟨[⟨nid, dv⟩], some ⟨nid, dv⟩, nid + 1, false⟩ := rfl
          rw [h0, if_neg hz]
        rw [hres]
        refine ⟨⟨?_, ?_⟩, by simp, (fun t h => nomatch h), ?_, ?_⟩
        · intro t ht
          simp only [List.mem_singleton] at ht
          rw [ht]
        · intro t h
          injection h with h
          rw [← h]
          simp
        · intro d hdeq hdz
          injection hdeq with h
          subst h
          rfl
        · rintro (h | h)
          · exact nomatch h
          · injection h with h
            exact absurd h hz
  · have hall : ∀ u ∈ pend, u = t0 := by
      intro u hu
      injection hmem u hu with h
      exact h.symm
    have hfresh0 : t0.id < nid := hfresh t0 rfl
    have hfilter : pend.filter (fun u => u ≠ t0) = [] := by
      rw [List.filter_eq_nil_iff]
      intro u hu
      simp [hall u hu]
    rcases delay with _ | dv
    · have hres : _reset_disconnect_timer none (⟨pend, some t0, nid, ex⟩ : TimerModel)
          = ⟨pend.filter (fun u => u ≠ t0), some t0, nid, false⟩ := rfl
      rw [hres, hfilter]
      exact ⟨⟨by simp, (fun t h => hfresh t h)⟩, by simp,
        (fun t h => by simp), (fun d hdeq => nomatch hdeq), (fun _ => rfl)⟩
    · by_cases hz : dv = 0
      · subst hz
        have hres : _reset_disconnect_timer (some 0) (⟨pend, some t0, nid, ex⟩ : TimerModel)
            = ⟨pend.filter (fun u => u ≠ t0), some t0, nid, false⟩ := rfl
        rw [hres, hfilter]
        refine ⟨⟨by simp, (fun t h => hfresh t h)⟩, by simp, (fun t h => by simp), ?_,
          (fun _ => rfl)⟩
        intro d hdeq hdz
        injection hdeq with h
        exact absurd h.symm hdz
      · have hres : _reset_disconnect_timer (some dv) (⟨pend, some t0, nid, ex⟩ : TimerModel)
            = ⟨pend.filter (fun u => u ≠ t0) ++ [⟨nid, dv⟩], some ⟨nid, dv⟩, nid + 1, false⟩ := by
          have h0 : _reset_disconnect_timer (some dv) (⟨pend, some t0, nid, ex⟩ : TimerModel)
              = if dv = 0 then ⟨pend.filter (fun u => u ≠ t0), some t0, nid, false⟩
                else ⟨pend.filter (fun u => u ≠ t0) ++ [⟨nid, dv⟩], some ⟨nid, dv⟩,
                      nid + 1, false⟩ := rfl
          rw [h0, if_neg hz]
        rw [hres, hfilter, List.nil_append]
        refine ⟨⟨?_, ?_⟩, by simp, ?_, ?_, ?_⟩
        · intro t ht
          simp only [List.mem_singleton] at ht
          rw [ht]
        · intro t h
          injection h with h
          rw [← h]
          simp
        · intro t h
          injection h with h
          subst h
          simp only [List.mem_singleton]
          intro habs
          rw [habs] at hfresh0
          simp at hfresh0
        · intro d hdeq hdz
          injection hdeq with h
          subst h
          rfl
        · rintro (h | h)
          · exact nomatch h
          · injection h with h
            exact absurd h hz

/-- Witness for C7's amended theorem: reset with delay 5 from a state
holding one pending timer. -/
theorem reset_disconnect_timer_amended_witness :
    TimerInv (_reset_disconnect_timer (some 5) ⟨[⟨0, 5⟩], some ⟨0, 5⟩, 1, true⟩)
    ∧ (_reset_disconnect_timer (some 5) ⟨[⟨0, 5⟩], some ⟨0, 5⟩, 1, true⟩).pending.length ≤ 1
    ∧ (∀ t, (some (⟨0, 5⟩ : TimerHandle)) = some t →
        t ∉ (_reset_disconnect_timer (some 5) ⟨[⟨0, 5⟩], some ⟨0, 5⟩, 1, true⟩).pending)
    ∧ (∀ d, (some 5 : Option Int) = some d → d ≠ 0 →
        (_reset_disconnect_timer (some 5) ⟨[⟨0, 5⟩], some ⟨0, 5⟩, 1, true⟩).pending = [⟨1, d⟩])
    ∧ (((some 5 : Option Int) = none ∨ (some 5 : Option Int) = some 0) →
        (_reset_disconnect_timer (some 5) ⟨[⟨0, 5⟩], some ⟨0, 5⟩, 1, true⟩).pending = []) :=
  reset_disconnect_timer_amended (some 5) ⟨[⟨0, 5⟩], some ⟨0, 5⟩, 1, true⟩
    ⟨by simp, by simp⟩

/-- Helper: full characterization of a run of the retry wrapper on its
(at most three) attempts. -/
theorem retryRun_eq {α : Type} (outcomes : Nat → AttemptResult α) :
    retry_bluetooth_connection_error outcomes =
      match outcomes 0 with
      | .ok a => ⟨[.call 0], .ok a⟩
      | .err .notFound => ⟨[.call 0], .error .notFound⟩
      | .err .dbus =>
        match outcomes 1 with
        | .ok a => ⟨[.call 0, .sleep 250, .call 1], .ok a⟩
        | .err .notFound => ⟨[.call 0, .sleep 250, .call 1], .error .notFound⟩
        | .err .dbus =>
          match outcomes 2 with
          | .ok a => ⟨[.call 0, .sleep 250, .call 1, .sleep 250, .call 2], .ok a⟩
          | .err e => ⟨[.call 0, .sleep 250, .call 1, .sleep 250, .call 2], .error e⟩
        | .err .bleak =>
          match outcomes 2 with
          | .ok a => ⟨[.call 0, .sleep 250, .call 1, .call 2], .ok a⟩
          | .err e => ⟨[.call 0, .sleep 250, .call 1, .call 2], .error e⟩
      | .err .bleak =>
        match outcomes 1 with
        | .ok a => ⟨[.call 0, .call 1], .ok a⟩
        | .err .notFound => ⟨[.call 0, .call 1], .error .notFound⟩
        | .err .dbus =>
          match outcomes 2 with
          | .ok a => ⟨[.call 0, .call 1, .sleep 250, .call 2], .ok a⟩
          | .err e => ⟨[.call 0, .call 1, .sleep 250, .call 2], .error e⟩
        | .err .bleak =>
          match outcomes 2 with
          | .ok a => ⟨[.call 0, .call 1, .call 2], .ok a⟩
          | .err e => ⟨[.call 0, .call 1, .call 2], .error e⟩ := by
  rcases h0 : outcomes 0 with a0 | (_ | _ | _) <;>
    rcases h1 : outcomes 1 with a1 | (_ | _ | _) <;>
      rcases h2 : outcomes 2 with a2 | (_ | _ | _) <;>
        simp [retry_bluetooth_connection_error, retryGo, DEFAULT_ATTEMPTS,
          BLEAK_BACKOFF_TIME_MS, h0, h1, h2]

/-- Claim C3: the retry wrapper invokes the wrapped operation at most 3
times; a `BleakNotFoundError` is re-raised immediately with no further
attempt; a `BleakDBusError` on a non-final attempt is followed by a
fixed 250 ms sleep before the next attempt while other retryable
transport errors retry immediately with no sleep; and an error of either
retryable class on the final (third) attempt is re-raised unchanged. -/
theorem retry_policy {α : Type} (outcomes : Nat → AttemptResult α) :
    (retry_bluetooth_connection_error outcomes).calls ≤ 3
    ∧ (outcomes 0 = .err .notFound →
        retry_bluetooth_connection_error outcomes = ⟨[.call 0], .error .notFound⟩)
    ∧ (retryable (outcomes 0) → outcomes 1 = .err .notFound →
        (retry_bluetooth_connection_error outcomes).calls = 2
        ∧ (retry_bluetooth_connection_error outcomes).result = .error .notFound)
    ∧ (retryable (outcomes 0) → retryable (outcomes 1) → outcomes 2 = .err .notFound →
        (retry_bluetooth_connection_error outcomes).calls = 3
        ∧ (retry_bluetooth_connection_error outcomes).result = .error .notFound)
    ∧ (outcomes 0 = .err .dbus →
        (retry_bluetooth_connection_error outcomes).events.take 3
          = [.call 0, .sleep 250, .call 1])
    ∧ (outcomes 0 = .err .bleak →
        (retry_bluetooth_connection_error outcomes).events.take 2 = [.call 0, .call 1])
    ∧ (outcomes 0 = .err .dbus → outcomes 1 = .err .dbus →
        (retry_bluetooth_connection_error outcomes).events.take 5
          = [.call 0, .sleep 250, .call 1, .sleep 250, .call 2])
    ∧ (outcomes 0 = .err .dbus → outcomes 1 = .err .bleak →
        (retry_bluetooth_connection_error outcomes).events.take 4
          = [.call 0, .sleep 250, .call 1, .call 2])
    ∧ (outcomes 0 = .err .bleak → outcomes 1 = .err .dbus →
        (retry_bluetooth_connection_error outcomes).events.take 4
          = [.call 0, .call 1, .sleep 250, .call 2])
    ∧ (outcomes 0 = .err .bleak → outcomes 1 = .err .bleak →
        (retry_bluetooth_connection_error outcomes).events.take 3
          = [.call 0, .call 1, .call 2])
    ∧ (retryable (outcomes 0) → retryable (outcomes 1) → ∀ e, outcomes 2 = .err e →
        (retry_bluetooth_connection_error outcomes).result = .error e) := by
  rw [retryRun_eq outcomes]
  rcases h0 : outcomes 0 with a0 | (_ | _ | _) <;>
    rcases h1 : outcomes 1 with a1 | (_ | _ | _) <;>
      rcases h2 : outcomes 2 with a2 | (_ | _ | _) <;>
        simp [h0, h1, h2, RetryTrace.calls, retryable, List.countP_cons, List.countP_nil]

/-- Witness for C3: a run whose attempts raise `BleakDBusError`, then a
generic retryable error, then `BleakNotFoundError`: three invocations,
one 250 ms sleep (after the first attempt only), final error re-raised. -/
theorem retry_policy_witness :
    ((retry_bluetooth_connection_error
        (fun i => if i = 0 then AttemptResult.err (α := Unit) BleakErr.dbus
                  else if i = 1 then AttemptResult.err BleakErr.bleak
                  else AttemptResult.err BleakErr.notFound)).calls = 3
      ∧ (retry_bluetooth_connection_error
          (fun i => if i = 0 then AttemptResult.err (α := Unit) BleakErr.dbus
                    else if i = 1 then AttemptResult.err BleakErr.bleak
                    else AttemptResult.err BleakErr.notFound)).result = .error .notFound)
    ∧ (retry_bluetooth_connection_error
        (fun i => if i = 0 then AttemptResult.err (α := Unit) BleakErr.dbus
                  else if i = 1 then AttemptResult.err BleakErr.bleak
                  else AttemptResult.err BleakErr.notFound)).events.take 4
        = [.call 0, .sleep 250, .call 1, .call 2] :=
  ⟨(retry_policy
      (fun i => if i = 0 then AttemptResult.err (α := Unit) BleakErr.dbus
                else if i = 1 then AttemptResult.err BleakErr.bleak
                else AttemptResult.err BleakErr.notFound)).2.2.2.1
      (Or.inl rfl) (Or.inr rfl) rfl,
    (retry_policy
      (fun i => if i = 0 then AttemptResult.err (α := Unit) BleakErr.dbus
                else if i = 1 then AttemptResult.err BleakErr.bleak
                else AttemptResult.err BleakErr.notFound)).2.2.2.2.2.2.2.1
      rfl rfl⟩

end BJLed
